import Mathlib

set_option autoImplicit false

/-
Shallow embedding of probe-run (src/main.rs), a host-side runner for
Cortex-M firmware.  Machine integers (u32) are modelled as Nat together
with explicit reductions modulo 2^32 where the Rust code can wrap; i64
arithmetic is modelled on Int with an explicit truncating cast back to
u32.  Fallible Rust code (anyhow bail / error propagation) is modelled
with an explicit outcome type; Rust panics (todo! / unimplemented! /
unreachable!) are kept distinct from returned errors, since the source
distinguishes aborting from returning Err.
-/

/-! Constants from main.rs lines 39-41, 414, 796-800. -/

def STACK_CANARY : Nat := 0xAA

def THUMB_BIT : Nat := 1

def SIGABRT : Nat := 134

/-- Core register number of the link register (main.rs line 796). -/
def LR : Nat := 14

/-- Core register number of the program counter (main.rs line 797). -/
def PC : Nat := 15

/-- Core register number of the stack pointer (main.rs line 798). -/
def SP : Nat := 13

/-- Sentinel LR value ending the backtrace walk (main.rs line 800). -/
def LR_END : Nat := 0xFFFFFFFF

def U32_MOD : Nat := 4294967296

/-- Truncating cast of an i64 result to u32, as in `(x as u32)`. -/
def u32ofInt (i : Int) : Nat := (i % (U32_MOD : Int)).toNat

/-- Wrapping u32 addition. -/
def u32add (a b : Nat) : Nat := (a + b) % U32_MOD

/-- Wrapping u32 subtraction of 1, as in `registers.sp - 1` (release mode). -/
def u32sub1 (a : Nat) : Nat := (a + (U32_MOD - 1)) % U32_MOD

/-! The `TopException` outcome of a backtrace (main.rs lines 416-420)
and the process exit code computed from it (main.rs lines 407-411). -/

inductive TopException where
  | hardFault
  | other
deriving DecidableEq

/-- Exit code of `notmain` on normal termination (main.rs lines 407-411):
`SIGABRT` (134) iff the top exception is a `HardFault`, else 0. -/
def exitCode (top_exception : Option TopException) : Nat :=
  if top_exception = some TopException.hardFault then SIGABRT else 0

/-- Recording of the top-most exception during the walk
(main.rs lines 606-612): set only when nothing was recorded yet,
to `HardFault` exactly when the current frame name is "HardFault". -/
def recordTopException (top_exception : Option TopException) (name : String) :
    Option TopException :=
  if top_exception = none then
    some (if name = ("HardFault") then TopException.hardFault else TopException.other)
  else top_exception

/-! The register cache (main.rs lines 468-532).  `BTreeMap<u16, u32>` is
modelled as an association list with unique keys: `cacheInsert`
overwrites an existing entry, like `BTreeMap::insert`. -/

abbrev Cache := List (Nat × Nat)

def cacheLookup : Cache → Nat → Option Nat
  | [], _ => none
  | (k, v) :: rest, key => if k = key then some v else cacheLookup rest key

def cacheInsert : Cache → Nat → Nat → Cache
  | [], key, val => [(key, val)]
  | (k, v) :: rest, key, val =>
    if k = key then (key, val) :: rest else (k, v) :: cacheInsert rest key val

/-- The live target, abstracting the probe-rs `Core`: `readReg` models
`read_core_reg` and `readWord` models `read_word_32` / `read_32` (one
32-bit little-endian word at a byte address).  Both are total oracles:
the claims under verification do not concern probe transport failures. -/
structure Target where
  readReg : Nat → Nat
  readWord : Nat → Nat

structure Registers where
  cache : Cache
deriving DecidableEq

/-- `Registers::new` (main.rs lines 474-479): seed the cache with LR and SP. -/
def Registers.new (lr sp : Nat) : Registers :=
  ⟨cacheInsert (cacheInsert [] LR lr) SP sp⟩

/-- `Registers::get` (main.rs lines 481-486): cached value if present,
otherwise read from the live core and cache the result. -/
def Registers.get (r : Registers) (t : Target) (reg : Nat) : Registers × Nat :=
  match cacheLookup r.cache reg with
  | some v => (r, v)
  | none => (⟨cacheInsert r.cache reg (t.readReg reg)⟩, t.readReg reg)

/-- `Registers::insert` (main.rs lines 488-490). -/
def Registers.insert (r : Registers) (reg val : Nat) : Registers :=
  ⟨cacheInsert r.cache reg val⟩

/-- gimli `CfaRule` as consumed by `update_cfa`. -/
inductive CfaRule where
  | registerAndOffset (register : Nat) (offset : Int)
  | expression
deriving DecidableEq

/-- gimli `RegisterRule` as consumed by `update`; every variant other
than `Undefined` and `Offset` is collapsed into `other`, exactly like
the catch-all `_` arm in the source. -/
inductive RegisterRule where
  | undefined
  | offset (offset : Int)
  | other
deriving DecidableEq

/-- Unwinder failures that the source reports by returning `Err`
(via `bail!` or error contexts), not by panicking. -/
inductive UnwindErr where
  | missingDebugInfo
  | badExcReturn (lr : Nat)
  | nonThumbReturnAddress (lr : Nat)
deriving DecidableEq

/-- Outcome of a fallible computation: `ok`, a returned error, or a
Rust panic (`todo!` / `unimplemented!` / `unreachable!`), which aborts
the process instead of returning. -/
inductive Outcome (α : Type) where
  | ok (val : α)
  | err (e : UnwindErr)
  | panic (msg : String)
deriving DecidableEq

def Outcome.isErr {α : Type} : Outcome α → Bool
  | .err _ => true
  | _ => false

def Outcome.isPanic {α : Type} : Outcome α → Bool
  | .panic _ => true
  | _ => false

/-- `Registers::update_cfa` (main.rs lines 492-511).  For a
`RegisterAndOffset` rule the new CFA is `(get(register) as i64 + offset)
as u32`, stored under SP; the returned Bool says whether it changed.
For an `Expression` rule the source executes `todo!("CfaRule::Expression")`,
whose panic message is "not yet implemented: CfaRule::Expression". -/
def Registers.update_cfa (r : Registers) (t : Target) (rule : CfaRule) :
    Outcome (Registers × Bool) :=
  match rule with
  | .registerAndOffset register offset =>
    let g := r.get t register
    let cfa := u32ofInt ((g.2 : Int) + offset)
    let changed := decide (cacheLookup g.1.cache SP ≠ some cfa)
    .ok (⟨cacheInsert g.1.cache SP cfa⟩, changed)
  | .expression => .panic ("not yet implemented: CfaRule::Expression")

/-- `Registers::update` (main.rs lines 513-531).  `Undefined` executes
`unreachable!()` (panic message "internal error: entered unreachable
code"); `Offset` reads a word at `CFA + offset` and stores it under
`reg`; every other variant executes `unimplemented!()` (panic message
"not implemented"). -/
def Registers.update (r : Registers) (t : Target) (reg : Nat) (rule : RegisterRule) :
    Outcome Registers :=
  match rule with
  | .undefined => .panic ("internal error: entered unreachable code")
  | .offset offset =>
    let g := r.get t SP
    .ok (g.1.insert reg (t.readWord (u32ofInt ((g.2 : Int) + offset))))
  | .other => .panic ("not implemented")

/-- The `for (reg, rule) in uwt_row.registers()` loop of `backtrace`
(main.rs lines 579-581), applying `update` to each rule in order. -/
def updateAll (t : Target) (r : Registers) : List (Nat × RegisterRule) → Outcome Registers
  | [] => .ok r
  | (reg, rule) :: rest =>
    match r.update t reg rule with
    | .ok r2 => updateAll t r2 rest
    | .err e => .err e
    | .panic m => .panic m

/-! The stacked exception frame (main.rs lines 648-744). -/

/-- FPU registers of an extended frame.  The source reinterprets the raw
32-bit words via `f32::from_bits`; the bit patterns are kept as Nat here
(they are never used arithmetically by the program). -/
structure StackedFpuRegs where
  s0 : Nat
  s1 : Nat
  s2 : Nat
  s3 : Nat
  s4 : Nat
  s5 : Nat
  s6 : Nat
  s7 : Nat
  s8 : Nat
  s9 : Nat
  s10 : Nat
  s11 : Nat
  s12 : Nat
  s13 : Nat
  s14 : Nat
  s15 : Nat
  fpscr : Nat
deriving DecidableEq

/-- Registers stacked on exception entry (main.rs lines 670-681). -/
structure Stacked where
  r0 : Nat
  r1 : Nat
  r2 : Nat
  r3 : Nat
  r12 : Nat
  lr : Nat
  pc : Nat
  xpsr : Nat
  fpu_regs : Option StackedFpuRegs
deriving DecidableEq

/-- Number of 32-bit words stacked in a basic frame (main.rs line 685). -/
def Stacked.WORDS_BASIC : Nat := 8

/-- Number of 32-bit words stacked in an extended frame (main.rs line 688). -/
def Stacked.WORDS_EXTENDED : Nat := Stacked.WORDS_BASIC + 17

/-- `Stacked::read` (main.rs lines 690-732): read 8 (basic) or 25
(extended) consecutive words starting at `sp`; word i sits at byte
address `sp + 4*i`. -/
def Stacked.read (t : Target) (sp : Nat) (fpu : Bool) : Stacked :=
  { r0 := t.readWord (sp + 4 * 0)
    r1 := t.readWord (sp + 4 * 1)
    r2 := t.readWord (sp + 4 * 2)
    r3 := t.readWord (sp + 4 * 3)
    r12 := t.readWord (sp + 4 * 4)
    lr := t.readWord (sp + 4 * 5)
    pc := t.readWord (sp + 4 * 6)
    xpsr := t.readWord (sp + 4 * 7)
    fpu_regs :=
      if fpu then
        some
          { s0 := t.readWord (sp + 4 * 8)
            s1 := t.readWord (sp + 4 * 9)
            s2 := t.readWord (sp + 4 * 10)
            s3 := t.readWord (sp + 4 * 11)
            s4 := t.readWord (sp + 4 * 12)
            s5 := t.readWord (sp + 4 * 13)
            s6 := t.readWord (sp + 4 * 14)
            s7 := t.readWord (sp + 4 * 15)
            s8 := t.readWord (sp + 4 * 16)
            s9 := t.readWord (sp + 4 * 17)
            s10 := t.readWord (sp + 4 * 18)
            s11 := t.readWord (sp + 4 * 19)
            s12 := t.readWord (sp + 4 * 20)
            s13 := t.readWord (sp + 4 * 21)
            s14 := t.readWord (sp + 4 * 22)
            s15 := t.readWord (sp + 4 * 23)
            fpscr := t.readWord (sp + 4 * 24) }
      else none }

/-- `Stacked::size` (main.rs lines 735-743): in-memory size in bytes. -/
def Stacked.size (s : Stacked) : Nat :=
  (if s.fpu_regs.isNone then Stacked.WORDS_BASIC else Stacked.WORDS_EXTENDED) * 4

/-! The backtrace walk (main.rs lines 534-633). -/

/-- EXC_RETURN classifier, the `match lr` of main.rs lines 598-601:
three values map to a basic frame, three to an extended frame, anything
else reaching this match makes the walk `bail!` (a returned error). -/
def classifyExcReturn (lr : Nat) : Outcome Bool :=
  if lr = 0xFFFFFFF1 ∨ lr = 0xFFFFFFF9 ∨ lr = 0xFFFFFFFD then .ok false
  else if lr = 0xFFFFFFE1 ∨ lr = 0xFFFFFFE9 ∨ lr = 0xFFFFFFED then .ok true
  else .err (.badExcReturn lr)

/-- The exception-entry cache transition of main.rs lines 615-621:
read the stacked frame at the cached SP, then `insert(LR, stacked.lr)`,
`insert(SP, sp + stacked.size())`, and continue at `stacked.pc`
(returned as the second component). -/
def excEntryTransition (t : Target) (regs : Registers) (fpu : Bool) : Registers × Nat :=
  let g := regs.get t SP
  let stacked := Stacked.read t g.2 fpu
  ((g.1.insert LR stacked.lr).insert SP (u32add g.2 stacked.size), stacked.pc)

/-- One unwind row, as produced by `unwind_info_for_address`: the CFA
rule plus the register rules of the row. -/
structure UnwindRow where
  cfa : CfaRule
  registers : List (Nat × RegisterRule)

/-- The pure environment of the walk: the live target, the debug-frame
row lookup (`none` models "no unwind info for this pc"), and the
RangeName lookup (with "<unknown>" already folded in on a miss). -/
structure Env where
  target : Target
  unwindRow : Nat → Option UnwindRow
  resolveName : Nat → String

/-- The mutable state of the backtrace loop. -/
structure BtState where
  regs : Registers
  pc : Nat
  top_exception : Option TopException
  frame : Nat
deriving DecidableEq

/-- Result of one iteration of the backtrace loop: continue with a new
state, end normally via `break` (LR sentinel, main.rs line 585-587),
end normally via the corruption early-return (main.rs lines 592-595,
which also prints a warning), propagate a returned error, or panic. -/
inductive StepResult where
  | next (s : BtState)
  | done (top_exception : Option TopException)
  | corrupted (top_exception : Option TopException)
  | err (e : UnwindErr)
  | panic (msg : String)
deriving DecidableEq

/-- Tail of one loop iteration (main.rs lines 583-629), after the unwind
row has been applied: `lr` is the freshly restored LR, `cfa_changed` the
result of `update_cfa`.  `0xFFFFFFFE` is `!THUMB_BIT` on u32. -/
def backtraceStepTail (env : Env) (s : BtState) (cfa_changed : Bool)
    (regs : Registers) (lr : Nat) : StepResult :=
  if lr = LR_END then .done s.top_exception
  else if cfa_changed = false ∧ lr &&& 0xFFFFFFFE = s.pc &&& 0xFFFFFFFE then
    .corrupted s.top_exception
  else if 0xFFFFFFE0 < lr then
    match classifyExcReturn lr with
    | .ok fpu =>
      let e := excEntryTransition env.target regs fpu
      .next { regs := e.1, pc := e.2,
              top_exception := recordTopException s.top_exception (env.resolveName s.pc),
              frame := s.frame + 1 }
    | .err e => .err e
    | .panic m => .panic m
  else if lr &&& THUMB_BIT = 0 then .err (.nonThumbReturnAddress lr)
  else .next { regs := regs, pc := lr &&& 0xFFFFFFFE,
               top_exception := s.top_exception, frame := s.frame + 1 }

/-- One full iteration of the backtrace loop (main.rs lines 555-630):
fetch the unwind row for `pc` (error `MissingDebugInfo` when absent),
apply the CFA rule and the register rules, restore LR, then dispatch. -/
def backtraceStep (env : Env) (s : BtState) : StepResult :=
  match env.unwindRow s.pc with
  | none => .err .missingDebugInfo
  | some uwt_row =>
    match s.regs.update_cfa env.target uwt_row.cfa with
    | .err e => .err e
    | .panic m => .panic m
    | .ok cfaRes =>
      match updateAll env.target cfaRes.1 uwt_row.registers with
      | .err e => .err e
      | .panic m => .panic m
      | .ok regs2 =>
        let g := regs2.get env.target LR
        backtraceStepTail env s cfaRes.2 g.1 g.2

/-- Result of running the whole loop with bounded fuel. -/
inductive RunResult where
  | finished (top_exception : Option TopException)
  | failed (e : UnwindErr)
  | panicked (msg : String)
  | outOfFuel (s : BtState)
deriving DecidableEq

def backtraceRun (env : Env) : Nat → BtState → RunResult
  | 0, s => .outOfFuel s
  | fuel + 1, s =>
    match backtraceStep env s with
    | .next s2 => backtraceRun env fuel s2
    | .done t => .finished t
    | .corrupted t => .finished t
    | .err e => .failed e
    | .panic m => .panicked m

/-! Canary placement (main.rs lines 92-104 and 249-274). -/

/-- A chip RAM region, `ram.range : Range<u32>` (half-open). -/
structure RamRange where
  start : Nat
  stop : Nat
deriving DecidableEq

/-- `ram.range.contains(&addr)`. -/
def RamRange.containsAddr (r : RamRange) (addr : Nat) : Bool :=
  decide (r.start ≤ addr ∧ addr < r.stop)

inductive MemRegion where
  | ram (range : RamRange)
  | other
deriving DecidableEq

/-- The RAM-region selection loop of main.rs lines 92-104: the first
RAM region in the memory map is kept; later RAM regions only produce a
debug message ("stack canary will not be available") and are ignored,
leaving the first region selected. -/
def selectRamRegion (memory_map : List MemRegion) : Option RamRange :=
  memory_map.foldl
    (fun acc region =>
      match region with
      | .ram r =>
        match acc with
        | some old => some old
        | none => some r
      | .other => acc)
    none

/-- Number of RAM regions in the chip memory map (used to state the
"exactly one RAM region" side of claim C1). -/
def countRamRegions (memory_map : List MemRegion) : Nat :=
  memory_map.countP (fun region =>
    match region with
    | .ram _ => true
    | .other => false)

/-- The canary decision of main.rs lines 249-274: with the selected RAM
region, install iff `highest_ram_addr_in_use != 0 && !uses_heap &&
(ram.range.contains(sp - 1) && highest_ram_addr_in_use < sp)`; the
canary is `(highest_ram_addr_in_use + 1, min(stack_available / 10, 1024))`
with `stack_available = sp - highest_ram_addr_in_use - 1` (exact in Nat
because the guard gives `highest_ram_addr_in_use < sp`). -/
def canaryFor (memory_map : List MemRegion) (sp highest_ram_addr_in_use : Nat)
    (uses_heap : Bool) : Option (Nat × Nat) :=
  match selectRamRegion memory_map with
  | none => none
  | some ram =>
    if decide (highest_ram_addr_in_use ≠ 0) && !uses_heap &&
        (ram.containsAddr (u32sub1 sp) && decide (highest_ram_addr_in_use < sp)) then
      some (highest_ram_addr_in_use + 1,
        min ((sp - highest_ram_addr_in_use - 1) / 10) 1024)
    else none

/-- `vec![STACK_CANARY; canary_size]` (main.rs line 272). -/
def canaryData (canary_size : Nat) : List Nat := List.replicate canary_size STACK_CANARY

/-- Memory effect of `core.write_8(addr, data)`: byte i of `data` is
written to address `addr + i`. -/
def write8Effect (addr : Nat) : List Nat → List (Nat × Nat)
  | [] => []
  | b :: rest => (addr, b) :: write8Effect (addr + 1) rest

/-- The full canary installation of main.rs lines 249-274: the list of
(address, byte) writes performed, empty when no canary is installed. -/
def canaryInstallWrites (memory_map : List MemRegion) (sp highest_ram_addr_in_use : Nat)
    (uses_heap : Bool) : List (Nat × Nat) :=
  match canaryFor memory_map sp highest_ram_addr_in_use uses_heap with
  | some c => write8Effect c.1 (canaryData c.2)
  | none => []

/-! Symbol-hash stripping (main.rs lines 772-787).  The demangled name
is modelled as a list of characters (the names involved are ASCII, so
Rust byte indices coincide with character indices). -/

/-- Length of the probe suffix `"::hd881d91ced85c2b0"`, 19. -/
def hash_len : Nat := ("::hd881d91ced85c2b0").length

/-- The hash-stripping of main.rs lines 778-785: when
`name.len().checked_sub(hash_len)` succeeds (the outer guard) and the
last `hash_len` characters start with "::h", truncate to `pos`.  The
source never inspects the 16 characters after "::h". -/
def strip_hash (name : List Char) : List Char :=
  if hash_len ≤ name.length then
    if (name.drop (name.length - hash_len)).take 3 = [':', ':', 'h'] then
      name.take (name.length - hash_len)
    else name
  else name

/-- Character-class test for an ASCII hex digit, needed to state the
spec side of claim C3. -/
def isHexChar (c : Char) : Bool :=
  (decide (('0') ≤ c) && decide (c ≤ ('9'))) ||
    (decide (('a') ≤ c) && decide (c ≤ ('f'))) ||
    (decide (('A') ≤ c) && decide (c ≤ ('F')))

/-- Modelled from the spec (claim C3), for refinement comparison only:
strip the suffix exactly when the last 19 characters are "::h" followed
by 16 characters that all validate as hex digits. -/
def spec_strip_hash (name : List Char) : List Char :=
  if hash_len ≤ name.length ∧
      (name.drop (name.length - hash_len)).take 3 = [':', ':', 'h'] ∧
      ((name.drop (name.length - hash_len)).drop 3).all isHexChar then
    name.take (name.length - hash_len)
  else name

/-! The run loop of `notmain` (main.rs lines 300-364) and the phases
that follow it (lines 371-411).  One `LoopIter` carries the values the
iteration observes from the outside world: the interrupt flag at the
top of the loop, the RTT read result, and the halt poll. -/

structure LoopIter where
  interrupt : Bool
  readRes : Except String Nat
  halted : Bool

/-- How the run loop ended: an RTT read error (`break` after printing
"RTT error: ..."), two consecutive halt polls (`break`), or the
interrupt flag observed set (loop condition false).  An exhausted
iteration list models the interrupt flag becoming set. -/
inductive LoopEnd where
  | rttError (msg : String)
  | doubleHalt
  | interrupted
deriving DecidableEq

/-- The `while !exit.load()` loop of main.rs lines 300-364, with
`hasChannel` saying whether a logging channel was attached.  A read
error prints and breaks; otherwise the halt poll is debounced through
`was_halted`. -/
def runLoop (hasChannel : Bool) : List LoopIter → Bool → LoopEnd
  | [], _ => .interrupted
  | it :: rest, was_halted =>
    if it.interrupt then .interrupted
    else
      match hasChannel, it.readRes with
      | true, .error e => .rttError e
      | _, _ =>
        if it.halted && was_halted then .doubleHalt
        else runLoop hasChannel rest it.halted

/-- Observable phases of `notmain` after `core.run()`. -/
inductive Phase where
  | rttErrorLine (msg : String)
  | haltCore
  | canaryCheck (addr len : Nat)
  | backtracePrint
  | exitWith (code : Nat)
deriving DecidableEq

/-- The tail of `notmain` (main.rs lines 300-411) as an ordered phase
list: run the loop (an RTT read error prints "RTT error: ..." and
breaks), halt the core if the loop ended by interrupt, then always:
check the canary if one was installed, print the backtrace, and exit
with `exitCode`. -/
def runSession (hasChannel : Bool) (iters : List LoopIter) (canary : Option (Nat × Nat))
    (top_exception : Option TopException) : List Phase :=
  (match runLoop hasChannel iters false with
   | .rttError m => [Phase.rttErrorLine (("RTT error: ") ++ m)]
   | _ => []) ++
  (if runLoop hasChannel iters false = LoopEnd.interrupted then [Phase.haltCore] else []) ++
  (match canary with
   | some c => [Phase.canaryCheck c.1 c.2]
   | none => []) ++
  [Phase.backtracePrint, Phase.exitWith (exitCode top_exception)]

/-! Concrete inputs used by counterexamples and witnesses. -/

def targetZero : Target := ⟨fun _ => 0, fun _ => 0⟩

def targetId : Target := ⟨fun _ => 5, fun a => a⟩

def regsEmpty : Registers := ⟨[]⟩

def spRegs : Registers := ⟨[(13, 1000)]⟩

def twoRamMap : List MemRegion :=
  [MemRegion.ram ⟨0x20000000, 0x20010000⟩, MemRegion.ram ⟨0x30000000, 0x30010000⟩]

def oneRamMap : List MemRegion := [MemRegion.ram ⟨0x20000000, 0x20010000⟩]

def hashCex : List Char := ("foo::hzzzzzzzzzzzzzzzz").data

def hexChars16 : List Char := ("0123456789abcdef").data

def btRegs : Registers := ⟨[(14, 0xFFFFFFFF), (13, 0x20000000)]⟩

def btEnv : Env :=
  ⟨targetZero, fun _ => some ⟨CfaRule.registerAndOffset 13 0, []⟩, fun _ => ("main")⟩

def btRow : UnwindRow := ⟨CfaRule.registerAndOffset 13 0, []⟩

def btState0 : BtState := ⟨btRegs, 0x100, none, 0⟩

def loopIterErr : LoopIter := ⟨false, Except.error ("x"), false⟩

/-! Helper lemmas about the cache and the step function. -/

theorem cacheLookup_insert_self (c : Cache) (k v : Nat) :
    cacheLookup (cacheInsert c k v) k = some v := by
  induction c with
  | nil => simp [cacheInsert, cacheLookup]
  | cons hd tl ih =>
    obtain ⟨k2, v2⟩ := hd
    unfold cacheInsert
    by_cases h : k2 = k
    · simp [h, cacheLookup]
    · simp [h, cacheLookup, ih]

theorem cacheLookup_insert_ne (c : Cache) (k v k2 : Nat) (h : k2 ≠ k) :
    cacheLookup (cacheInsert c k v) k2 = cacheLookup c k2 := by
  have hne : ¬k = k2 := fun hh => h hh.symm
  induction c with
  | nil => simp [cacheInsert, cacheLookup, hne]
  | cons hd tl ih =>
    obtain ⟨k3, v3⟩ := hd
    unfold cacheInsert
    by_cases h3 : k3 = k
    · subst h3
      rw [if_pos rfl]
      unfold cacheLookup
      rw [if_neg hne, if_neg hne]
    · rw [if_neg h3]
      unfold cacheLookup
      by_cases h4 : k3 = k2
      · rw [if_pos h4, if_pos h4]
      · rw [if_neg h4, if_neg h4, ih]

theorem Registers.get_cached (r : Registers) (t : Target) (reg v : Nat)
    (h : cacheLookup r.cache reg = some v) : r.get t reg = (r, v) := by
  unfold Registers.get
  rw [h]

theorem excEntryTransition_eq (t : Target) (regs : Registers) (fpu : Bool) (sp : Nat)
    (hsp : cacheLookup regs.cache SP = some sp) :
    excEntryTransition t regs fpu =
      ((regs.insert LR (Stacked.read t sp fpu).lr).insert SP
          (u32add sp (Stacked.read t sp fpu).size),
        (Stacked.read t sp fpu).pc) := by
  unfold excEntryTransition
  rw [Registers.get_cached regs t SP sp hsp]

theorem write8Effect_replicate (addr len c : Nat) :
    write8Effect addr (List.replicate len c) =
      (List.range len).map (fun i => (addr + i, c)) := by
  induction len generalizing addr with
  | zero => simp [write8Effect]
  | succ n ih =>
    rw [List.replicate_succ]
    unfold write8Effect
    rw [ih, List.range_succ_eq_map, List.map_cons, List.map_map]
    refine congrArg₂ _ (by simp) ?_
    refine List.map_congr_left ?_
    intro a _
    simp [Function.comp]
    omega

theorem backtraceStep_staged (env : Env) (s : BtState) (uwt_row : UnwindRow)
    (regs1 : Registers) (changed : Bool) (regs2 regs3 : Registers) (lr : Nat)
    (hrow : env.unwindRow s.pc = some uwt_row)
    (hcfa : s.regs.update_cfa env.target uwt_row.cfa = .ok (regs1, changed))
    (hupd : updateAll env.target regs1 uwt_row.registers = .ok regs2)
    (hget : regs2.get env.target LR = (regs3, lr)) :
    backtraceStep env s = backtraceStepTail env s changed regs3 lr := by
  unfold backtraceStep
  rw [hrow]
  dsimp only
  rw [hcfa]
  dsimp only
  rw [hupd]
  dsimp only
  rw [hget]

theorem backtraceRun_finished_exists (env : Env) :
    ∀ (fuel : Nat) (s : BtState) (t : Option TopException),
      backtraceRun env fuel s = .finished t →
      ∃ s2, backtraceStep env s2 = .done t ∨ backtraceStep env s2 = .corrupted t := by
  intro fuel
  induction fuel with
  | zero =>
    intro s t h
    exact absurd h (by simp [backtraceRun])
  | succ n ih =>
    intro s t h
    unfold backtraceRun at h
    cases hs : backtraceStep env s <;> rw [hs] at h <;> dsimp only at h
    · exact ih _ _ h
    · cases h
      exact ⟨s, Or.inl hs⟩
    · cases h
      exact ⟨s, Or.inr hs⟩
    · cases h
    · cases h

/-- Projection helper for `Registers.insert`. -/
theorem Registers.insert_cache (r : Registers) (reg val : Nat) :
    (r.insert reg val).cache = cacheInsert r.cache reg val := rfl

/-! Claim C1. -/

/-- C1 counterexample: the claim requires "exactly one RAM region is
known" for a canary to be installed, but with two RAM regions in the
chip memory map the code still installs a canary (using the first
region), because the loop at main.rs lines 92-104 keeps the first
region selected and only logs a debug message for later ones. -/
theorem C1_counterexample :
    countRamRegions twoRamMap = 2 ∧
    canaryFor twoRamMap 0x20008000 0x20000100 false = some (0x20000101, 1024) := by
  decide

/-- C1 (amended): the canary is installed iff the first RAM region of
the memory map exists and, for that region, `highest_ram_addr_in_use > 0`,
the heap is not in use, `sp - 1` lies in the region, and
`sp > highest_ram_addr_in_use`; whenever a canary is installed, at
least one RAM region was known (not necessarily exactly one). -/
theorem C1_canary_region_iff (memory_map : List MemRegion) (sp high : Nat) (heap : Bool) :
    ((canaryFor memory_map sp high heap).isSome = true ↔
      ∃ ram, selectRamRegion memory_map = some ram ∧ high ≠ 0 ∧ heap = false ∧
        ram.containsAddr (u32sub1 sp) = true ∧ high < sp) ∧
    ((canaryFor memory_map sp high heap).isSome = true →
      (selectRamRegion memory_map).isSome = true) := by
  cases hsel : selectRamRegion memory_map with
  | none =>
    constructor
    · simp [canaryFor, hsel]
    · simp [canaryFor, hsel]
  | some ram0 =>
    constructor
    · unfold canaryFor
      rw [hsel]
      dsimp only
      by_cases hc : (decide (high ≠ 0) && !heap &&
          (ram0.containsAddr (u32sub1 sp) && decide (high < sp))) = true
      · rw [if_pos hc]
        simp only [Option.isSome_some, true_iff]
        simp only [Bool.and_eq_true, decide_eq_true_eq, Bool.not_eq_true'] at hc
        exact ⟨ram0, rfl, hc.1.1, hc.1.2, hc.2.1, hc.2.2⟩
      · rw [if_neg hc]
        simp only [Option.isSome_none, Bool.false_eq_true, false_iff]
        rintro ⟨ram, hr, hh, hheap, hcont, hlt⟩
        injection hr with hr
        subst hr
        exact hc (by simp [hh, hheap, hcont, hlt])
    · intro _
      simp

theorem C1_witness : (canaryFor oneRamMap 0x20008000 0x20000100 false).isSome = true :=
  (C1_canary_region_iff oneRamMap 0x20008000 0x20000100 false).1.mpr
    ⟨⟨0x20000000, 0x20010000⟩, by decide, by decide, rfl, by decide, by decide⟩

/-! Claim C2. -/

/-- C2 counterexample: `update_cfa` applied to `CfaRule::Expression`
does not return an `UnsupportedUnwindRule` error — it panics (the
source executes `todo!`), and likewise `update` on a rule other than
`Undefined` / `Offset` panics via `unimplemented!`. -/
theorem C2_counterexample :
    Registers.update_cfa regsEmpty targetZero CfaRule.expression =
      Outcome.panic ("not yet implemented: CfaRule::Expression") ∧
    Outcome.isErr (Registers.update_cfa regsEmpty targetZero CfaRule.expression) = false ∧
    Registers.update regsEmpty targetZero 0 RegisterRule.other =
      Outcome.panic ("not implemented") ∧
    Outcome.isErr (Registers.update regsEmpty targetZero 0 RegisterRule.other) = false :=
  ⟨rfl, rfl, rfl, rfl⟩

/-- C2 (amended): for an `Expression` CFA rule `update_cfa` panics
(Rust `todo!`), and `update` panics on `Undefined` (`unreachable!`) and
on every other unsupported variant (`unimplemented!`); none of these
return an error value — the process aborts instead. -/
theorem C2_unsupported_rules_panic (t : Target) (r : Registers) (reg : Nat) :
    Registers.update_cfa r t CfaRule.expression =
      Outcome.panic ("not yet implemented: CfaRule::Expression") ∧
    Registers.update r t reg RegisterRule.other = Outcome.panic ("not implemented") ∧
    Registers.update r t reg RegisterRule.undefined =
      Outcome.panic ("internal error: entered unreachable code") ∧
    Outcome.isErr (Registers.update_cfa r t CfaRule.expression) = false ∧
    Outcome.isErr (Registers.update r t reg RegisterRule.other) = false :=
  ⟨rfl, rfl, rfl, rfl, rfl⟩

theorem C2_witness :
    Registers.update_cfa regsEmpty targetZero CfaRule.expression =
      Outcome.panic ("not yet implemented: CfaRule::Expression") ∧
    Outcome.isPanic (Registers.update regsEmpty targetZero 3 RegisterRule.other) = true :=
  ⟨(C2_unsupported_rules_panic targetZero regsEmpty 3).1,
    by rw [(C2_unsupported_rules_panic targetZero regsEmpty 3).2.1]; rfl⟩

/-! Claim C3. -/

/-- C3 counterexample: the code strips any 19-character tail starting
with "::h" without validating the 16 following characters as hex, so
"foo::hzzzzzzzzzzzzzzzz" becomes "foo" although its 16 tail characters
are not hex digits; the spec-modelled hex-validating version leaves the
name unchanged there. -/
theorem C3_counterexample :
    strip_hash hashCex = ("foo").data ∧
    spec_strip_hash hashCex = hashCex ∧
    (hashCex.drop 6).all isHexChar = false := by
  decide

/-- C3 (amended): the trailing suffix is stripped exactly when the name
is at least 19 characters long and its last 19 characters start with
"::h" — the remaining 16 characters are not validated as hex digits.
All examples of the claim still hold; any 16-character tail after
"::h" is stripped (the if direction), while a name shorter than 19
characters, or one whose last 19 characters do not start with "::h",
is left unchanged (the only-if direction). -/
theorem C3_strip_hash_shape (name suffix : List Char) (hlen : suffix.length = 16) :
    strip_hash (("foo::bar::hd881d91ced85c2b0").data) = ("foo::bar").data ∧
    strip_hash (("foo::bar").data) = ("foo::bar").data ∧
    strip_hash (("foo::habcdef0123456789").data) = ("foo").data ∧
    (name.length < hash_len → strip_hash name = name) ∧
    (hash_len ≤ name.length →
      (name.drop (name.length - hash_len)).take 3 ≠ [':', ':', 'h'] →
      strip_hash name = name) ∧
    strip_hash (name ++ [':', ':', 'h'] ++ suffix) = name := by
  have h19 : hash_len = 19 := by decide
  refine ⟨by decide, by decide, by decide, ?_, ?_, ?_⟩
  · intro hlt
    unfold strip_hash
    rw [if_neg (by omega)]
  · intro hge hns
    unfold strip_hash
    rw [if_pos hge, if_neg hns]
  · have hfull : (name ++ [':', ':', 'h'] ++ suffix).length = name.length + 19 := by
      simp [hlen]
    unfold strip_hash
    rw [if_pos (by omega)]
    have hpos : (name ++ [':', ':', 'h'] ++ suffix).length - hash_len = name.length := by
      omega
    rw [hpos, List.append_assoc, List.drop_left]
    have hcond : List.take 3 ([':', ':', 'h'] ++ suffix) = [':', ':', 'h'] := by simp
    rw [if_pos hcond]
    exact List.take_left _ _

theorem C3_witness :
    strip_hash (("abc").data ++ [':', ':', 'h'] ++ hexChars16) = ("abc").data :=
  (C3_strip_hash_shape (("abc").data) hexChars16 (by decide)).2.2.2.2.2

/-! Claim C4. -/

/-- C4: for an LR value in (0xFFFFFFE0, 0xFFFFFFFE] — the sentinel
0xFFFFFFFF having already ended the walk — the EXC_RETURN classifier
maps 0xFFFFFFF1/0xFFFFFFF9/0xFFFFFFFD to a basic (fpu=false) frame,
0xFFFFFFE1/0xFFFFFFE9/0xFFFFFFED to an extended (fpu=true) frame, and
fails with a `BadExcReturn` error on every other value. -/
theorem C4_exc_return_classifier (lr : Nat) (_h1 : 0xFFFFFFE0 < lr) (_h2 : lr ≤ 0xFFFFFFFE) :
    (classifyExcReturn lr = .ok false ↔
      (lr = 0xFFFFFFF1 ∨ lr = 0xFFFFFFF9 ∨ lr = 0xFFFFFFFD)) ∧
    (classifyExcReturn lr = .ok true ↔
      (lr = 0xFFFFFFE1 ∨ lr = 0xFFFFFFE9 ∨ lr = 0xFFFFFFED)) ∧
    (¬(lr = 0xFFFFFFF1 ∨ lr = 0xFFFFFFF9 ∨ lr = 0xFFFFFFFD ∨
        lr = 0xFFFFFFE1 ∨ lr = 0xFFFFFFE9 ∨ lr = 0xFFFFFFED) →
      classifyExcReturn lr = .err (.badExcReturn lr)) := by
  unfold classifyExcReturn
  by_cases hA : lr = 0xFFFFFFF1 ∨ lr = 0xFFFFFFF9 ∨ lr = 0xFFFFFFFD
  · rw [if_pos hA]
    refine ⟨by simp [hA], ?_, ?_⟩
    · constructor
      · intro h
        exact absurd h (by simp)
      · intro hB
        exfalso
        rcases hA with h | h | h <;> rcases hB with h2 | h2 | h2 <;> omega
    · intro hn
      exact absurd (by tauto) hn
  · rw [if_neg hA]
    by_cases hB : lr = 0xFFFFFFE1 ∨ lr = 0xFFFFFFE9 ∨ lr = 0xFFFFFFED
    · rw [if_pos hB]
      refine ⟨by simp [hA], by simp [hB], ?_⟩
      intro hn
      exact absurd (by tauto) hn
    · rw [if_neg hB]
      refine ⟨by simp [hA], by simp [hB], fun _ => rfl⟩

theorem C4_witness :
    classifyExcReturn 0xFFFFFFF1 = Outcome.ok false ∧
    classifyExcReturn 0xFFFFFFF2 = Outcome.err (UnwindErr.badExcReturn 0xFFFFFFF2) :=
  ⟨(C4_exc_return_classifier 0xFFFFFFF1 (by decide) (by decide)).1.mpr (Or.inl rfl),
   (C4_exc_return_classifier 0xFFFFFFF2 (by decide) (by decide)).2.2 (by decide)⟩

/-! Claim C5. -/

/-- C5: one iteration of the backtrace loop ends the walk with a
backtrace result exactly when the restored LR equals 0xFFFFFFFF
(`done`, the `break` of main.rs line 586) or corruption is detected —
CFA unchanged and `lr & !1 == pc & !1` (`corrupted`, the warning print
plus `return Ok(top_exception)` of lines 592-595); both carry the
top-exception accumulator.  Every other iteration either continues or
fails with an error/panic, and a fuel-bounded run that produces a
backtrace result does so through one of these two step outcomes. -/
theorem C5_loop_termination (env : Env) (s : BtState) (uwt_row : UnwindRow)
    (regs1 : Registers) (changed : Bool) (regs2 regs3 : Registers) (lr : Nat)
    (hrow : env.unwindRow s.pc = some uwt_row)
    (hcfa : s.regs.update_cfa env.target uwt_row.cfa = .ok (regs1, changed))
    (hupd : updateAll env.target regs1 uwt_row.registers = .ok regs2)
    (hget : regs2.get env.target LR = (regs3, lr)) :
    ((∃ t2, backtraceStep env s = .done t2 ∨ backtraceStep env s = .corrupted t2) ↔
      (lr = LR_END ∨ (changed = false ∧ lr &&& 0xFFFFFFFE = s.pc &&& 0xFFFFFFFE))) ∧
    (backtraceStep env s = .done s.top_exception ↔ lr = LR_END) ∧
    (backtraceStep env s = .corrupted s.top_exception ↔
      (lr ≠ LR_END ∧ changed = false ∧ lr &&& 0xFFFFFFFE = s.pc &&& 0xFFFFFFFE)) ∧
    (∀ (fuel : Nat) (t2 : Option TopException),
      backtraceRun env fuel s = .finished t2 →
      ∃ s2, backtraceStep env s2 = .done t2 ∨ backtraceStep env s2 = .corrupted t2) := by
  have hstep := backtraceStep_staged env s uwt_row regs1 changed regs2 regs3 lr hrow hcfa hupd hget
  rw [hstep]
  unfold backtraceStepTail
  refine ⟨?_, ?_, ?_, fun fuel t2 h => backtraceRun_finished_exists env fuel s t2 h⟩
  · by_cases hs1 : lr = LR_END
    · rw [if_pos hs1]
      simp [hs1]
    · rw [if_neg hs1]
      by_cases hs2 : changed = false ∧ lr &&& 0xFFFFFFFE = s.pc &&& 0xFFFFFFFE
      · rw [if_pos hs2]
        simp [hs1, hs2]
      · rw [if_neg hs2]
        simp only [hs1, hs2, or_self, iff_false, false_or]
        rintro ⟨t2, ht⟩
        rcases ht with ht | ht <;> by_cases hs3 : 0xFFFFFFE0 < lr
        · rw [if_pos hs3] at ht
          split at ht <;> simp at ht
        · rw [if_neg hs3] at ht
          split at ht <;> simp at ht
        · rw [if_pos hs3] at ht
          split at ht <;> simp at ht
        · rw [if_neg hs3] at ht
          split at ht <;> simp at ht
  · by_cases hs1 : lr = LR_END
    · rw [if_pos hs1]
      simp [hs1]
    · rw [if_neg hs1]
      simp only [hs1, iff_false]
      intro ht
      by_cases hs2 : changed = false ∧ lr &&& 0xFFFFFFFE = s.pc &&& 0xFFFFFFFE
      · rw [if_pos hs2] at ht
        simp at ht
      · rw [if_neg hs2] at ht
        by_cases hs3 : 0xFFFFFFE0 < lr
        · rw [if_pos hs3] at ht
          split at ht <;> simp at ht
        · rw [if_neg hs3] at ht
          split at ht <;> simp at ht
  · by_cases hs1 : lr = LR_END
    · rw [if_pos hs1]
      simp [hs1]
    · rw [if_neg hs1]
      by_cases hs2 : changed = false ∧ lr &&& 0xFFFFFFFE = s.pc &&& 0xFFFFFFFE
      · rw [if_pos hs2]
        simp [hs1, hs2]
      · rw [if_neg hs2]
        refine iff_of_false ?_ ?_
        · intro ht
          by_cases hs3 : 0xFFFFFFE0 < lr
          · rw [if_pos hs3] at ht
            split at ht <;> simp at ht
          · rw [if_neg hs3] at ht
            split at ht <;> simp at ht
        · rintro ⟨hne, hc1, hc2⟩
          exact hs2 ⟨hc1, hc2⟩

theorem C5_witness : backtraceStep btEnv btState0 = StepResult.done none :=
  (C5_loop_termination btEnv btState0 btRow btRegs false btRegs btRegs 0xFFFFFFFF
    rfl (by decide) rfl (by decide)).2.1.mpr rfl

/-! Claim C6. -/

/-- C6: the process exits with code 134 exactly when the recorded top
exception is `HardFault`, and with 0 on every other normal termination;
the top exception is recorded only when nothing was recorded before,
as `HardFault` exactly when the current frame name is the literal
string "HardFault" (the recording `backtraceStep` performs on an
exception-entry transition via `recordTopException`). -/
theorem C6_exit_code_hardfault (t : Option TopException) (name : String)
    (prev : TopException) :
    (exitCode t = 134 ↔ t = some TopException.hardFault) ∧
    (exitCode t = 134 ∨ exitCode t = 0) ∧
    recordTopException none name =
      some (if name = ("HardFault") then TopException.hardFault else TopException.other) ∧
    recordTopException (some prev) name = some prev := by
  refine ⟨?_, ?_, by simp [recordTopException], by simp [recordTopException]⟩
  · by_cases h : t = some TopException.hardFault <;> simp [exitCode, SIGABRT, h]
  · by_cases h : t = some TopException.hardFault <;> simp [exitCode, SIGABRT, h]

theorem C6_witness : exitCode (some TopException.hardFault) = 134 :=
  (C6_exit_code_hardfault (some TopException.hardFault) ("x") TopException.other).1.mpr rfl

/-! Claim C7. -/

/-- C7: whenever a canary is installed its length is
`min((sp - highest_ram_addr_in_use - 1) / 10, 1024)` (integer
division), its address is `highest_ram_addr_in_use + 1`, and exactly
`len` bytes of value 0xAA are written at consecutive addresses starting
there. -/
theorem C7_canary_size (memory_map : List MemRegion) (sp high : Nat) (heap : Bool)
    (addr len : Nat) (h : canaryFor memory_map sp high heap = some (addr, len)) :
    len = min ((sp - high - 1) / 10) 1024 ∧
    addr = high + 1 ∧
    STACK_CANARY = 0xAA ∧
    canaryInstallWrites memory_map sp high heap =
      (List.range len).map (fun i => (addr + i, STACK_CANARY)) := by
  have hmain : addr = high + 1 ∧ len = min ((sp - high - 1) / 10) 1024 := by
    unfold canaryFor at h
    split at h
    · exact absurd h (by simp)
    · split at h
      · simp only [Option.some.injEq, Prod.mk.injEq] at h
        exact ⟨h.1.symm, h.2.symm⟩
      · exact absurd h (by simp)
  refine ⟨hmain.2, hmain.1, rfl, ?_⟩
  unfold canaryInstallWrites
  rw [h]
  dsimp only
  unfold canaryData
  exact write8Effect_replicate addr len STACK_CANARY

theorem C7_witness : (1024 : Nat) = min ((0x20008000 - 0x20000100 - 1) / 10) 1024 :=
  (C7_canary_size oneRamMap 0x20008000 0x20000100 false 0x20000101 1024 (by decide)).1

/-! Claim C8. -/

/-- C8: on an exception-entry transition the unwinder reads the stacked
frame at the cached SP and then sets the cached LR to the stacked lr
(the word at sp+20), the cached SP to sp plus the frame size — 32 bytes
basic, 100 bytes extended — and continues at the stacked pc (the word
at sp+24).  The SP update wraps modulo 2^32 like the u32 addition in
the source; below 2^32 it is the plain sum. -/
theorem C8_exception_entry_update (t : Target) (regs : Registers) (fpu : Bool) (sp : Nat)
    (hsp : cacheLookup regs.cache SP = some sp) :
    cacheLookup (excEntryTransition t regs fpu).1.cache LR =
      some (Stacked.read t sp fpu).lr ∧
    cacheLookup (excEntryTransition t regs fpu).1.cache SP =
      some (u32add sp (Stacked.read t sp fpu).size) ∧
    (excEntryTransition t regs fpu).2 = (Stacked.read t sp fpu).pc ∧
    (Stacked.read t sp fpu).size = (if fpu then 100 else 32) ∧
    (Stacked.read t sp fpu).lr = t.readWord (sp + 20) ∧
    (Stacked.read t sp fpu).pc = t.readWord (sp + 24) ∧
    (sp + (Stacked.read t sp fpu).size < U32_MOD →
      u32add sp (Stacked.read t sp fpu).size = sp + (Stacked.read t sp fpu).size) := by
  rw [excEntryTransition_eq t regs fpu sp hsp]
  have hsize : (Stacked.read t sp fpu).size = (if fpu then 100 else 32) := by
    cases fpu <;>
      simp [Stacked.read, Stacked.size, Stacked.WORDS_BASIC, Stacked.WORDS_EXTENDED]
  refine ⟨?_, ?_, rfl, hsize, by simp [Stacked.read], by simp [Stacked.read], ?_⟩
  · rw [Registers.insert_cache, Registers.insert_cache,
      cacheLookup_insert_ne _ SP _ LR (by decide), cacheLookup_insert_self]
  · rw [Registers.insert_cache, cacheLookup_insert_self]
  · intro hlt
    unfold u32add
    exact Nat.mod_eq_of_lt hlt

theorem C8_witness :
    cacheLookup (excEntryTransition targetId spRegs false).1.cache LR =
      some ((Stacked.read targetId 1000 false).lr) :=
  (C8_exception_entry_update targetId spRegs false 1000 rfl).1

/-! Claim C9. -/

/-- C9: an exception-entry transition modifies only the LR and SP
entries of the register cache — every key other than 13 (SP) and
14 (LR) keeps its previous value — while the stacked r0-r3, r12, xpsr
and FPU words are read from target memory (at sp+0 .. sp+96) without
ever being inserted into the cache. -/
theorem C9_exception_entry_cache_only_lr_sp (t : Target) (regs : Registers) (fpu : Bool)
    (k sp : Nat) (hsp : cacheLookup regs.cache SP = some sp)
    (hk1 : k ≠ SP) (hk2 : k ≠ LR) :
    cacheLookup (excEntryTransition t regs fpu).1.cache k = cacheLookup regs.cache k ∧
    (Stacked.read t sp fpu).r0 = t.readWord (sp + 0) ∧
    (Stacked.read t sp fpu).r1 = t.readWord (sp + 4) ∧
    (Stacked.read t sp fpu).r2 = t.readWord (sp + 8) ∧
    (Stacked.read t sp fpu).r3 = t.readWord (sp + 12) ∧
    (Stacked.read t sp fpu).r12 = t.readWord (sp + 16) ∧
    (Stacked.read t sp fpu).xpsr = t.readWord (sp + 28) ∧
    (fpu = true → ∃ f, (Stacked.read t sp fpu).fpu_regs = some f ∧
      f.s0 = t.readWord (sp + 32) ∧ f.fpscr = t.readWord (sp + 96)) := by
  rw [excEntryTransition_eq t regs fpu sp hsp]
  refine ⟨?_, by simp [Stacked.read], by simp [Stacked.read], by simp [Stacked.read],
    by simp [Stacked.read], by simp [Stacked.read], by simp [Stacked.read], ?_⟩
  · rw [Registers.insert_cache, Registers.insert_cache,
      cacheLookup_insert_ne _ SP _ k hk1, cacheLookup_insert_ne _ LR _ k hk2]
  · intro hf
    subst hf
    exact ⟨⟨t.readWord (sp + 32), t.readWord (sp + 36), t.readWord (sp + 40),
      t.readWord (sp + 44), t.readWord (sp + 48), t.readWord (sp + 52),
      t.readWord (sp + 56), t.readWord (sp + 60), t.readWord (sp + 64),
      t.readWord (sp + 68), t.readWord (sp + 72), t.readWord (sp + 76),
      t.readWord (sp + 80), t.readWord (sp + 84), t.readWord (sp + 88),
      t.readWord (sp + 92), t.readWord (sp + 96)⟩, by simp [Stacked.read], rfl, rfl⟩

theorem C9_witness :
    cacheLookup (excEntryTransition targetId spRegs true).1.cache 0 =
      cacheLookup spRegs.cache 0 :=
  (C9_exception_entry_cache_only_lr_sp targetId spRegs true 0 1000 rfl
    (by decide) (by decide)).1

/-! Claim C10. -/

/-- C10: an RTT read error in the run loop is not fatal — the loop
iteration that observes it ends the loop with `rttError` after printing
"RTT error: ..." — and a session whose loop ended that way still
performs the canary check (when a canary was installed) and prints the
backtrace before exiting with the normal exit code. -/
theorem C10_rtt_error_not_fatal (iters : List LoopIter) (canary : Option (Nat × Nat))
    (top : Option TopException) (m : String) (it : LoopIter) (rest : List LoopIter)
    (was : Bool) (hin : it.interrupt = false) (hread : it.readRes = Except.error m) :
    runLoop true (it :: rest) was = LoopEnd.rttError m ∧
    (runLoop true iters false = LoopEnd.rttError m →
      runSession true iters canary top =
        Phase.rttErrorLine (("RTT error: ") ++ m) ::
          ((match canary with
            | some c => [Phase.canaryCheck c.1 c.2]
            | none => []) ++
            [Phase.backtracePrint, Phase.exitWith (exitCode top)])) := by
  constructor
  · unfold runLoop
    rw [if_neg (by simp [hin]), hread]
  · intro hloop
    unfold runSession
    rw [hloop]
    simp

theorem C10_witness :
    runSession true [loopIterErr] none none =
      [Phase.rttErrorLine ("RTT error: x"), Phase.backtracePrint, Phase.exitWith 0] := by
  have h := C10_rtt_error_not_fatal [loopIterErr] none none ("x") loopIterErr [] false rfl rfl
  have h2 := h.2 h.1
  simpa using h2
